import Mathlib

/-!
Shallow embedding of the Nutrition_Bot repository's quality-control
controller and resource-governance layer, together with theorems checking
the natural-language specification against it.

Sources embedded:
* `src/core/config.py`      — RAG settings of `AppConfig`
* `src/core/routing.py`     — `should_continue_groundedness`,
  `should_continue_precision`, `max_iterations_reached`
* `src/core/evaluation.py`  — `_parse_score`, `score_groundedness`,
  `check_precision`
* `src/agents/agent_steps.py` and `src/core/refinement.py` — workflow steps
* `src/agent_workflow/workflow.py` and `src/agent_workflow/tools/rag.py`
  — the LangGraph state machine and its initial state
* `src/core/cache.py`        — `CacheEntry`, `LRUCache`
* `src/core/rate_limiter.py` — `TokenBucket`, `RateLimiter`
* `src/services/bot.py`      — `NutritionBot._generate_cache_key`,
  `NutritionBot.handle_customer_query`

Conventions: Python floats are modelled as `ℚ` (every comparison the code
performs is against decimal literals, and both sides of each comparison go
through the same parser, so the ordering facts used here are unaffected);
wall-clock instants and elapsed times are explicit `ℚ` arguments, with
`time.monotonic` guaranteeing non-negative elapsed differences; LLM and
retriever collaborators are opaque function parameters (`Oracles`); Python
exceptions are `Except String`.
-/

/- Batteries seals the rational-number operations; reopen them for
elaboration so that concrete states evaluate with `decide`. -/
attribute [local semireducible] Rat.add Rat.mul Rat.inv Rat.sub

/-! ## Configuration (src/core/config.py, RAG settings of `AppConfig`) -/

def groundedness_threshold : ℚ := 7/10

def precision_threshold : ℚ := 7/10

def max_refinement_iterations : ℕ := 3

/-! ## Agent state (src/agents/agent_state.py)

A retrieved document: `{"content": ..., "metadata": ...}` as built by
`retrieve_context`. Metadata values are opaque strings here. -/

structure RagDoc where
  content : String
  metadata : List (String × String)
deriving DecidableEq, Repr

/-- The `AgentState` TypedDict (the fields the embedded steps read or
write; `groundedness_check`, `loop_max_iter` and `timestamp` are written
by no embedded step and omitted). Loop counters start at 0 and are only
incremented, so `ℕ` is faithful. -/
structure AgentState where
  query : String
  expanded_query : String
  context : List RagDoc
  response : String
  precision_score : ℚ
  groundedness_score : ℚ
  groundedness_loop_count : ℕ
  precision_loop_count : ℕ
  feedback : String
  query_feedback : String
deriving DecidableEq, Repr

/-! ## Routing (src/core/routing.py) -/

/-- `should_continue_groundedness(state)`: thresholds come from the cached
`AppConfig` (0.7 and 3). Returns the next node name exactly as the Python
string literals do. -/
def should_continue_groundedness (state : AgentState) : String :=
  if state.groundedness_score ≥ groundedness_threshold then
    "check_precision"
  else if state.groundedness_loop_count ≥ max_refinement_iterations then
    "max_iterations_reached"
  else
    "refine_response"

/-- `should_continue_precision(state)`: note the source compares the loop
count with `>` (strictly greater), unlike the groundedness gate's `>=`. -/
def should_continue_precision (state : AgentState) : String :=
  if state.precision_score ≥ precision_threshold then
    "pass"
  else if state.precision_loop_count > max_refinement_iterations then
    "max_iterations_reached"
  else
    "refine_query"

/-- The fixed fallback text set by `max_iterations_reached`. -/
def fallback_response : String :=
  "I apologize, but I need more context to provide an accurate answer. " ++
  "Could you please provide more details or rephrase your question?"

/-- `max_iterations_reached(state)`: overwrite `response` with the fixed
fallback message; nothing else changes. -/
def max_iterations_reached (state : AgentState) : AgentState :=
  { state with response := fallback_response }

/-! ## Score parsing (src/core/evaluation.py, `_parse_score`)

`_parse_score` first tries `float(response.strip())`; on `ValueError` it
searches for the regex `(\d+\.?\d*)` in the raw response and parses the
matched group; on total failure it defaults to `0.5`; finally it clamps
with `max(0.0, min(1.0, score))`.

`pyFloat` models CPython's `float(str)` on its decimal-literal fragment:
optional sign, digits with an optional point, optional exponent. (The
`inf`/`nan` spellings and digit-group underscores also accepted by CPython
are outside this model; no score string in the repository uses them.) -/

def isPySpace (c : Char) : Bool :=
  c = ' ' ∨ c = '\t' ∨ c = '\n' ∨ c = '\r' ∨ c = Char.ofNat 11 ∨ c = Char.ofNat 12

/-- `str.strip()` on the ASCII whitespace set. -/
def pyStrip (cs : List Char) : List Char :=
  ((cs.dropWhile isPySpace).reverse.dropWhile isPySpace).reverse

/-- Value of a digit string, most significant first. -/
def digitsToNat (ds : List Char) : ℕ :=
  ds.foldl (fun n c => 10 * n + (c.toNat - '0'.toNat)) 0

/-- Mantissa value: `intPart . fracPart`. -/
def mantissaVal (intPart fracPart : List Char) : ℚ :=
  (digitsToNat intPart : ℚ) + (digitsToNat fracPart : ℚ) / 10 ^ fracPart.length

/-- `float(s)` on a decimal literal, `none` when CPython raises
`ValueError`. -/
def pyFloat (cs : List Char) : Option ℚ :=
  let signAndRest : ℚ × List Char :=
    match cs with
    | '+' :: r => (1, r)
    | '-' :: r => (-1, r)
    | r => (1, r)
  let sign := signAndRest.1
  let cs1 := signAndRest.2
  let intPart := cs1.takeWhile Char.isDigit
  let cs2 := cs1.dropWhile Char.isDigit
  let fracAndRest : List Char × List Char :=
    match cs2 with
    | '.' :: r => (r.takeWhile Char.isDigit, r.dropWhile Char.isDigit)
    | r => ([], r)
  let fracPart := fracAndRest.1
  let cs3 := fracAndRest.2
  if intPart.isEmpty ∧ fracPart.isEmpty then none
  else
    let mantissa : ℚ := sign * mantissaVal intPart fracPart
    match cs3 with
    | [] => some mantissa
    | e :: r =>
      if e = 'e' ∨ e = 'E' then
        let esignAndRest : Bool × List Char :=
          match r with
          | '+' :: rr => (true, rr)
          | '-' :: rr => (false, rr)
          | rr => (true, rr)
        let expDigits := esignAndRest.2.takeWhile Char.isDigit
        let r2 := esignAndRest.2.dropWhile Char.isDigit
        if expDigits.isEmpty ∨ ¬r2.isEmpty then none
        else if esignAndRest.1 then
          some (mantissa * 10 ^ digitsToNat expDigits)
        else
          some (mantissa / 10 ^ digitsToNat expDigits)
      else none

/-- First match of `re.search(r'(\d+\.?\d*)', response)`, already converted
to its `float` value (the group always parses: digits, optional point,
optional digits). `none` when the response contains no digit. -/
def reFirstNumber : List Char → Option ℚ
  | [] => none
  | c :: rest =>
    if c.isDigit then
      let intPart := (c :: rest).takeWhile Char.isDigit
      let r1 := (c :: rest).dropWhile Char.isDigit
      let fracPart :=
        match r1 with
        | '.' :: r2 => r2.takeWhile Char.isDigit
        | _ => []
      some (mantissaVal intPart fracPart)
    else reFirstNumber rest

/-- Python `max` on two values (returns the first argument when equal). -/
def pyMax (a b : ℚ) : ℚ := if b ≤ a then a else b

/-- Python `min` on two values (returns the first argument when equal). -/
def pyMin (a b : ℚ) : ℚ := if a ≤ b then a else b

/-- `_parse_score(response)` from src/core/evaluation.py. -/
def _parse_score (response : String) : ℚ :=
  let score : ℚ :=
    match pyFloat (pyStrip response.data) with
    | some x => x
    | none =>
      match reFirstNumber response.data with
      | some x => x
      | none => 1/2
  pyMax 0 (pyMin 1 score)

/-! ## Workflow steps (src/agents/agent_steps.py, src/core/evaluation.py,
src/core/refinement.py)

The Generator (`llm` behind LangChain prompt-chains) and the Retriever
(`multi_retriever`) are external collaborators; they appear as opaque
function parameters. Each oracle receives exactly the state fields the
corresponding Python chain interpolates into its prompt, so a step's
Generator input is visible in the oracle's arguments. -/

structure Oracles where
  /-- `expand_query`'s chain: receives the user query (the only template
  variable of its prompt), returns the expansion. -/
  expandGen : String → String
  /-- `multi_retriever.invoke`: query to retrieved documents. -/
  retrieve : String → List RagDoc
  /-- `craft_response`'s chain: query, concatenated context, feedback. -/
  craftGen : String → String → String → String
  /-- groundedness evaluator chain: context, response to raw score text. -/
  groundGen : String → String → String
  /-- precision evaluator chain: query, response to raw score text. -/
  precisionGen : String → String → String
  /-- `refine_response`'s chain: query, response to suggestions. -/
  refineResponseGen : String → String → String
  /-- `refine_query`'s chain: query, expanded query to suggestions. -/
  refineQueryGen : String → String → String

/-- `"\n".join(doc["content"] for doc in state["context"])`. -/
def contextText (ctx : List RagDoc) : String :=
  String.intercalate "\n" (ctx.map RagDoc.content)

/-- `expand_query(state)` (src/agents/agent_steps.py): invokes the chain
with `{"query": state["query"]}` only and stores the result in
`expanded_query`. -/
def expand_query (o : Oracles) (state : AgentState) : AgentState :=
  { state with expanded_query := o.expandGen state.query }

/-- `retrieve_context(state)`: retrieves with `state["expanded_query"]` and
replaces `context` wholesale. -/
def retrieve_context (o : Oracles) (state : AgentState) : AgentState :=
  { state with context := o.retrieve state.expanded_query }

/-- `craft_response(state)`: invokes the chain with query, joined context
contents and `state.get("feedback", "")`; replaces `response`. -/
def craft_response (o : Oracles) (state : AgentState) : AgentState :=
  { state with
      response := o.craftGen state.query (contextText state.context) state.feedback }

/-- `score_groundedness(state)` (src/core/evaluation.py): scores the
response against the joined context, parses with `_parse_score`,
increments `groundedness_loop_count`, sets `groundedness_score`. -/
def score_groundedness (o : Oracles) (state : AgentState) : AgentState :=
  { state with
      groundedness_loop_count := state.groundedness_loop_count + 1
      groundedness_score :=
        _parse_score (o.groundGen (contextText state.context) state.response) }

/-- `check_precision(state)` (src/core/evaluation.py): scores the response
against the query, increments `precision_loop_count`, sets
`precision_score`. -/
def check_precision (o : Oracles) (state : AgentState) : AgentState :=
  { state with
      precision_loop_count := state.precision_loop_count + 1
      precision_score :=
        _parse_score (o.precisionGen state.query state.response) }

/-- `refine_response(state)` (src/core/refinement.py): stores
`"Previous Response: <response>\nSuggestions: <suggestions>"` in
`feedback`, fully replacing the previous feedback. -/
def refine_response (o : Oracles) (state : AgentState) : AgentState :=
  { state with
      feedback := "Previous Response: " ++ state.response ++ "\nSuggestions: " ++
        o.refineResponseGen state.query state.response }

/-- `refine_query(state)` (src/core/refinement.py): stores
`"Previous Expanded Query: <expanded>\nSuggestions: <suggestions>"` in
`query_feedback`, fully replacing the previous value. -/
def refine_query (o : Oracles) (state : AgentState) : AgentState :=
  { state with
      query_feedback := "Previous Expanded Query: " ++ state.expanded_query ++
        "\nSuggestions: " ++ o.refineQueryGen state.query state.expanded_query }

/-! ## The LangGraph state machine (src/agent_workflow/workflow.py) -/

/-- The nodes of `create_workflow` plus the `END` sentinel. -/
inductive GraphNode
  | expand_query
  | retrieve_context
  | craft_response
  | score_groundedness
  | refine_response
  | check_precision
  | refine_query
  | max_iterations_reached
  | END
deriving DecidableEq, Repr

/-- One transition of the compiled graph: run the node's step function,
then follow its (conditional) edge, exactly as wired by `create_workflow`.
The conditional edges dispatch on the router's returned string through the
mapping dictionaries passed to `add_conditional_edges`. -/
def stepNode (o : Oracles) : GraphNode → AgentState → GraphNode × AgentState
  | .expand_query, s => (.retrieve_context, expand_query o s)
  | .retrieve_context, s => (.craft_response, retrieve_context o s)
  | .craft_response, s => (.score_groundedness, craft_response o s)
  | .score_groundedness, s =>
    let s' := score_groundedness o s
    let nxt :=
      if should_continue_groundedness s' = "check_precision" then
        GraphNode.check_precision
      else if should_continue_groundedness s' = "refine_response" then
        GraphNode.refine_response
      else GraphNode.max_iterations_reached
    (nxt, s')
  | .refine_response, s => (.craft_response, refine_response o s)
  | .check_precision, s =>
    let s' := check_precision o s
    let nxt :=
      if should_continue_precision s' = "pass" then GraphNode.END
      else if should_continue_precision s' = "refine_query" then
        GraphNode.refine_query
      else GraphNode.max_iterations_reached
    (nxt, s')
  | .refine_query, s => (.expand_query, refine_query o s)
  | .max_iterations_reached, s => (.END, max_iterations_reached s)
  | .END, s => (.END, s)

/-- Run the graph for at most `fuel` transitions, recording the nodes
executed in order. `END` is absorbing and is never recorded. -/
def runTrace (o : Oracles) : ℕ → GraphNode → AgentState →
    List GraphNode × GraphNode × AgentState
  | 0, n, s => ([], n, s)
  | fuel + 1, n, s =>
    if n = .END then ([], n, s)
    else
      let next := stepNode o n s
      let rest := runTrace o fuel next.1 next.2
      (n :: rest.1, rest.2)

/-- The initial state dict built by `agentic_rag`
(src/agent_workflow/tools/rag.py). -/
def initialState (query : String) : AgentState :=
  { query := query
    expanded_query := ""
    context := []
    response := ""
    precision_score := 0
    groundedness_score := 0
    groundedness_loop_count := 0
    precision_loop_count := 0
    feedback := ""
    query_feedback := "" }

/-! ## Theorems: routing gates (C1, C2) -/

/-- C2: for every state, `should_continue_groundedness` (threshold 0.7,
maxIterations 3) returns `"check_precision"` iff the groundedness score is
at least 0.7, returns `"max_iterations_reached"` iff the score is below
0.7 and the loop count is at least 3, and returns `"refine_response"` in
every remaining case. -/
theorem should_continue_groundedness_routes (s : AgentState) :
    (should_continue_groundedness s = "check_precision" ↔
      s.groundedness_score ≥ 7/10)
    ∧ (should_continue_groundedness s = "max_iterations_reached" ↔
        s.groundedness_score < 7/10 ∧ s.groundedness_loop_count ≥ 3)
    ∧ (should_continue_groundedness s = "refine_response" ↔
        s.groundedness_score < 7/10 ∧ s.groundedness_loop_count < 3) := by
  unfold should_continue_groundedness groundedness_threshold
    max_refinement_iterations
  split_ifs with h1 h2 <;>
    refine ⟨?_, ?_, ?_⟩ <;>
    simp_all [String.ext_iff, not_le]

/-- A state with precision score 0.5 and precision loop count exactly 3:
the boundary case on which the claimed `≥` policy and the implemented `>`
policy disagree. -/
def precisionBoundaryState : AgentState :=
  { query := "q", expanded_query := "", context := [], response := "r",
    precision_score := 1/2, groundedness_score := 1,
    groundedness_loop_count := 3, precision_loop_count := 3,
    feedback := "", query_feedback := "" }

/-- C1 counterexample: at precision score 0.5 (below threshold) and
precision loop count 3 = maxIterations, `should_continue_precision`
returns `"refine_query"`, not `"max_iterations_reached"` as the claimed
`precisionLoopCount ≥ maxIterations` boundary would require: the source
compares with `>`. -/
theorem should_continue_precision_boundary_cex :
    precisionBoundaryState.precision_score < 7/10
    ∧ precisionBoundaryState.precision_loop_count ≥ 3
    ∧ should_continue_precision precisionBoundaryState = "refine_query"
    ∧ should_continue_precision precisionBoundaryState ≠
        "max_iterations_reached" := by
  decide

/-- C1 amended: for every state, `should_continue_precision` (threshold
0.7, maxIterations 3) returns `"pass"` iff the precision score is at least
0.7; otherwise it returns `"max_iterations_reached"` exactly when the
precision loop count is strictly greater than maxIterations, and
`"refine_query"` otherwise. -/
theorem should_continue_precision_routes (s : AgentState) :
    (should_continue_precision s = "pass" ↔ s.precision_score ≥ 7/10)
    ∧ (should_continue_precision s = "max_iterations_reached" ↔
        s.precision_score < 7/10 ∧ s.precision_loop_count > 3)
    ∧ (should_continue_precision s = "refine_query" ↔
        s.precision_score < 7/10 ∧ s.precision_loop_count ≤ 3) := by
  unfold should_continue_precision precision_threshold
    max_refinement_iterations
  split_ifs with h1 h2 <;>
    refine ⟨?_, ?_, ?_⟩ <;>
    simp_all [String.ext_iff, not_le]

/-! ## Theorems: score parsing (C3) -/

/-- Clamping with `max(0.0, min(1.0, x))` always lands in `[0, 1]`. -/
theorem pyClamp_bounds (x : ℚ) :
    0 ≤ pyMax 0 (pyMin 1 x) ∧ pyMax 0 (pyMin 1 x) ≤ 1 := by
  unfold pyMax pyMin
  split_ifs <;> constructor <;> linarith

/-- C3: `_parse_score` first attempts a direct numeric parse of the
trimmed text; on failure it parses the first decimal-number-shaped
substring; on total failure it returns the default 0.5; the result is
always clamped into `[0, 1]`; and on the four sample inputs it returns
1.0, 0.0, 0.5 and 0.65 respectively. -/
theorem parse_score_spec :
    (∀ s : String, 0 ≤ _parse_score s ∧ _parse_score s ≤ 1)
    ∧ (∀ (s : String) (x : ℚ), pyFloat (pyStrip s.data) = some x →
        _parse_score s = pyMax 0 (pyMin 1 x))
    ∧ (∀ (s : String) (x : ℚ), pyFloat (pyStrip s.data) = none →
        reFirstNumber s.data = some x → _parse_score s = pyMax 0 (pyMin 1 x))
    ∧ (∀ s : String, pyFloat (pyStrip s.data) = none →
        reFirstNumber s.data = none → _parse_score s = 1/2)
    ∧ _parse_score "1.5" = 1
    ∧ _parse_score "-0.5" = 0
    ∧ _parse_score "no numbers" = 1/2
    ∧ _parse_score "Score: 0.65 based on X" = 13/20 := by
  refine ⟨?_, ?_, ?_, ?_, by decide, by decide, by decide, by decide⟩
  · intro s
    unfold _parse_score
    exact pyClamp_bounds _
  · intro s x h
    simp only [_parse_score, h]
  · intro s x h1 h2
    simp only [_parse_score, h1, h2]
  · intro s h1 h2
    simp only [_parse_score, h1, h2]
    decide

/-- C3 witness: the direct-parse, substring and default branches of
`parse_score_spec` applied at concrete inputs. -/
theorem parse_score_spec_app :
    _parse_score "0.8" = pyMax 0 (pyMin 1 (4/5))
    ∧ _parse_score "abc 2.5 x" = pyMax 0 (pyMin 1 (5/2))
    ∧ _parse_score "??" = 1/2 :=
  ⟨parse_score_spec.2.1 "0.8" (4/5) (by decide),
   parse_score_spec.2.2.1 "abc 2.5 x" (5/2) (by decide) (by decide),
   parse_score_spec.2.2.2.1 "??" (by decide) (by decide)⟩

/-! ## Theorems: ExpandQuery step (C4) -/

/-- C4 divergence: `expand_query` invokes its chain with
`{"query": state["query"]}` only, so the Generator prompt is entirely
independent of `query_feedback` — changing `query_feedback` commutes with
the step (first conjunct). The claimed true part holds: the output
replaces `expanded_query` and every other field is unchanged (second
conjunct). The feedback that `refine_query` stores for this step is
therefore never consumed. -/
theorem expand_query_ignores_query_feedback :
    (∀ (o : Oracles) (s : AgentState) (fb : String),
        expand_query o { s with query_feedback := fb } =
          { expand_query o s with query_feedback := fb })
    ∧ (∀ (o : Oracles) (s : AgentState),
        (expand_query o s).expanded_query = o.expandGen s.query
        ∧ (expand_query o s).query = s.query
        ∧ (expand_query o s).context = s.context
        ∧ (expand_query o s).response = s.response
        ∧ (expand_query o s).precision_score = s.precision_score
        ∧ (expand_query o s).groundedness_score = s.groundedness_score
        ∧ (expand_query o s).groundedness_loop_count =
            s.groundedness_loop_count
        ∧ (expand_query o s).precision_loop_count = s.precision_loop_count
        ∧ (expand_query o s).feedback = s.feedback
        ∧ (expand_query o s).query_feedback = s.query_feedback) :=
  ⟨fun _ _ _ => rfl,
   fun _ _ => ⟨rfl, rfl, rfl, rfl, rfl, rfl, rfl, rfl, rfl, rfl⟩⟩

/-! ## Theorems: end-to-end scenario B (C5) -/

set_option maxHeartbeats 1000000 in
/-- C5: starting from `agentic_rag`'s initial state, when every
groundedness scoring parses to 0.3, the run executes exactly three
`score_groundedness` nodes, never executes `check_precision`, reaches
`END` through `max_iterations_reached` (12 transitions suffice), and the
final response is the fixed fallback message with groundedness loop count
3. -/
theorem workflow_groundedness_max_iterations (o : Oracles) (q : String)
    (hg : ∀ c r, _parse_score (o.groundGen c r) = 3/10) :
    (runTrace o 12 .expand_query (initialState q)).1.count
        .score_groundedness = 3
    ∧ GraphNode.check_precision ∉
        (runTrace o 12 .expand_query (initialState q)).1
    ∧ (runTrace o 12 .expand_query (initialState q)).2.1 = GraphNode.END
    ∧ (runTrace o 12 .expand_query (initialState q)).2.2.response =
        fallback_response
    ∧ (runTrace o 12 .expand_query
        (initialState q)).2.2.groundedness_loop_count = 3 := by
  norm_num [runTrace, stepNode, expand_query, retrieve_context,
    craft_response, score_groundedness, refine_response,
    should_continue_groundedness, groundedness_threshold,
    max_refinement_iterations, max_iterations_reached, initialState, hg]
  simp [List.count_cons]

/-- Constant collaborators whose groundedness evaluator always answers
`"0.3"`. -/
def constOracles : Oracles :=
  { expandGen := fun q => q
    retrieve := fun _ => []
    craftGen := fun _ _ _ => "resp"
    groundGen := fun _ _ => "0.3"
    precisionGen := fun _ _ => "0.9"
    refineResponseGen := fun _ _ => "sugg"
    refineQueryGen := fun _ _ => "sugg" }

/-- C5 witness: the scenario evaluated under `constOracles`. -/
theorem workflow_groundedness_max_iterations_app :
    (runTrace constOracles 12 .expand_query
        (initialState "what is scurvy")).2.2.response = fallback_response :=
  (workflow_groundedness_max_iterations constOracles "what is scurvy"
    (fun _ _ => show _parse_score "0.3" = 3/10 by decide)).2.2.2.1

/-! ## Cache (src/core/cache.py)

`OrderedDict` is modelled as an association list in insertion order:
head = oldest (least recently used), last = newest (most recently used).
Python dict assignment on an existing key keeps its position, which
`insertOrReplace` reproduces; `del` removes the unique binding, which
`eraseKey` reproduces. `time.time()` instants are explicit `now`
arguments. -/

structure CacheEntry (V : Type) where
  value : V
  created_at : ℚ
  ttl : ℚ
  hits : ℕ
deriving DecidableEq, Repr

/-- `CacheEntry.is_expired`: a TTL of 0 (or less) never expires; otherwise
the entry is expired when `now - created_at > ttl`. -/
def CacheEntry.is_expired {V : Type} (e : CacheEntry V) (now : ℚ) : Bool :=
  if e.ttl ≤ 0 then false else decide (now - e.created_at > e.ttl)

structure LRUCache (K V : Type) where
  cache : List (K × CacheEntry V)
  max_size : ℕ
  default_ttl : ℚ
  hits : ℕ
  misses : ℕ

variable {K V : Type} [DecidableEq K]

/-- `key in self._cache` plus `self._cache[key]`. -/
def lookupEntry : List (K × CacheEntry V) → K → Option (CacheEntry V)
  | [], _ => none
  | (k', e) :: rest, k => if k = k' then some e else lookupEntry rest k

/-- `del self._cache[key]` (removes the unique binding). -/
def eraseKey : List (K × CacheEntry V) → K → List (K × CacheEntry V)
  | [], _ => []
  | (k', e) :: rest, k => if k = k' then rest else (k', e) :: eraseKey rest k

/-- `self._cache[key] = entry`: replaces in place when present, else
appends at the most-recently-used end. -/
def insertOrReplace : List (K × CacheEntry V) → K → CacheEntry V →
    List (K × CacheEntry V)
  | [], k, e => [(k, e)]
  | (k', e') :: rest, k, e =>
    if k = k' then (k, e) :: rest else (k', e') :: insertOrReplace rest k e

/-- `LRUCache.__init__`. -/
def LRUCache.init (max_size : ℕ) (default_ttl : ℚ) : LRUCache K V :=
  { cache := [], max_size := max_size, default_ttl := default_ttl,
    hits := 0, misses := 0 }

/-- `LRUCache.get`: miss on absent or expired keys (evicting the expired
entry); a hit moves the key to the most-recently-used end and bumps both
hit counters. -/
def LRUCache.get (c : LRUCache K V) (now : ℚ) (key : K) :
    Option V × LRUCache K V :=
  match lookupEntry c.cache key with
  | none => (none, { c with misses := c.misses + 1 })
  | some entry =>
    if entry.is_expired now then
      (none, { c with cache := eraseKey c.cache key, misses := c.misses + 1 })
    else
      (some entry.value,
        { c with
            cache := eraseKey c.cache key ++
              [(key, { entry with hits := entry.hits + 1 })]
            hits := c.hits + 1 })

/-- `LRUCache.set`: `while len(self._cache) >= self._max_size:
popitem(last=False)` pops oldest entries until the length is
`max_size - 1`; as a closed form this drops the
`length + 1 - max_size` oldest entries (truncated subtraction). Then the
new entry (fresh `hits = 0`, TTL defaulted) is assigned. For
`max_size = 0` CPython would raise `KeyError` on the empty dict; the
claims assume `max_size ≥ 1`. -/
def LRUCache.set (c : LRUCache K V) (now : ℚ) (key : K) (value : V)
    (ttl : Option ℚ) : LRUCache K V :=
  let t := ttl.getD c.default_ttl
  let evicted := c.cache.drop (c.cache.length + 1 - c.max_size)
  { c with cache := insertOrReplace evicted key ⟨value, now, t, 0⟩ }

/-- `LRUCache.invalidate`. -/
def LRUCache.invalidate (c : LRUCache K V) (key : K) : Bool × LRUCache K V :=
  if (lookupEntry c.cache key).isSome then
    (true, { c with cache := eraseKey c.cache key })
  else (false, c)

/-- `LRUCache.clear`. -/
def LRUCache.clear (c : LRUCache K V) : LRUCache K V :=
  { c with cache := [], hits := 0, misses := 0 }

/-- `LRUCache.cleanup_expired`: removes every expired binding, returning
how many were removed. -/
def LRUCache.cleanup_expired (c : LRUCache K V) (now : ℚ) :
    ℕ × LRUCache K V :=
  let remaining := c.cache.filter (fun p => ¬ p.2.is_expired now)
  (c.cache.length - remaining.length, { c with cache := remaining })

/-- The public operations of the cache, with explicit clock values. -/
inductive CacheOp (K V : Type) where
  | get (now : ℚ) (key : K)
  | set (now : ℚ) (key : K) (value : V) (ttl : Option ℚ)
  | invalidate (key : K)
  | clear
  | cleanup_expired (now : ℚ)

def applyCacheOp (c : LRUCache K V) : CacheOp K V → LRUCache K V
  | .get now k => (c.get now k).2
  | .set now k v t => c.set now k v t
  | .invalidate k => (c.invalidate k).2
  | .clear => c.clear
  | .cleanup_expired now => (c.cleanup_expired now).2

/-! ### Cache lemmas (C6) -/

theorem length_eraseKey_le (l : List (K × CacheEntry V)) (k : K) :
    (eraseKey l k).length ≤ l.length := by
  induction l with
  | nil => simp [eraseKey]
  | cons p rest ih =>
    obtain ⟨k', e⟩ := p
    simp only [eraseKey]
    split_ifs <;> simp <;> omega

theorem length_insertOrReplace_le (l : List (K × CacheEntry V)) (k : K)
    (e : CacheEntry V) :
    (insertOrReplace l k e).length ≤ l.length + 1 := by
  induction l with
  | nil => simp [insertOrReplace]
  | cons p rest ih =>
    obtain ⟨k', e'⟩ := p
    simp only [insertOrReplace]
    split_ifs <;> simp <;> omega

theorem length_eraseKey_of_found (l : List (K × CacheEntry V)) (k : K)
    (e : CacheEntry V) (h : lookupEntry l k = some e) :
    (eraseKey l k).length + 1 = l.length := by
  induction l with
  | nil => simp [lookupEntry] at h
  | cons p rest ih =>
    obtain ⟨k', e'⟩ := p
    simp only [lookupEntry] at h
    simp only [eraseKey]
    by_cases hk : k = k'
    · simp [hk]
    · simp only [if_neg hk] at h ⊢
      have := ih h
      simp only [List.length_cons]
      omega

/-- One cache operation preserves the capacity field and the size bound. -/
theorem cache_step_bound (c : LRUCache K V) (op : CacheOp K V)
    (hm : 1 ≤ c.max_size) (h : c.cache.length ≤ c.max_size) :
    (applyCacheOp c op).max_size = c.max_size
    ∧ (applyCacheOp c op).cache.length ≤ c.max_size := by
  cases op with
  | get now k =>
    simp only [applyCacheOp, LRUCache.get]
    cases hl : lookupEntry c.cache k with
    | none => exact ⟨rfl, h⟩
    | some entry =>
      dsimp only
      split_ifs with hexp
      · exact ⟨rfl, le_trans (length_eraseKey_le _ _) h⟩
      · refine ⟨rfl, ?_⟩
        have he := length_eraseKey_of_found c.cache k entry hl
        simp only [List.length_append, List.length_cons, List.length_nil]
        omega
  | set now k v t =>
    refine ⟨rfl, ?_⟩
    show (insertOrReplace (c.cache.drop (c.cache.length + 1 - c.max_size)) k
        ⟨v, now, t.getD c.default_ttl, 0⟩).length ≤ c.max_size
    have h1 := length_insertOrReplace_le
      (c.cache.drop (c.cache.length + 1 - c.max_size)) k
      ⟨v, now, t.getD c.default_ttl, 0⟩
    have h2 : (c.cache.drop (c.cache.length + 1 - c.max_size)).length =
        c.cache.length - (c.cache.length + 1 - c.max_size) :=
      List.length_drop _ _
    omega
  | invalidate k =>
    simp only [applyCacheOp, LRUCache.invalidate]
    split_ifs
    · exact ⟨rfl, le_trans (length_eraseKey_le _ _) h⟩
    · exact ⟨rfl, h⟩
  | clear => exact ⟨rfl, by simp [applyCacheOp, LRUCache.clear]⟩
  | cleanup_expired now =>
    refine ⟨rfl, ?_⟩
    show (c.cache.filter (fun p => ¬ p.2.is_expired now)).length ≤ c.max_size
    exact le_trans (List.length_filter_le _ _) h

/-- Any operation sequence from a fresh cache respects the size bound. -/
theorem cache_ops_bound (m : ℕ) (ttl : ℚ) (ops : List (CacheOp K V))
    (hm : 1 ≤ m) :
    (ops.foldl applyCacheOp (LRUCache.init m ttl)).cache.length ≤ m := by
  suffices h : ∀ c : LRUCache K V, c.max_size = m → c.cache.length ≤ m →
      (ops.foldl applyCacheOp c).max_size = m
      ∧ (ops.foldl applyCacheOp c).cache.length ≤ m by
    exact (h _ rfl (by simp [LRUCache.init])).2
  induction ops with
  | nil => exact fun c h1 h2 => ⟨h1, h2⟩
  | cons op rest ih =>
    intro c h1 h2
    have step := cache_step_bound c op (h1 ▸ hm) (h1 ▸ h2)
    exact ih _ (step.1.trans h1) (h1 ▸ step.2)

theorem lookup_insertOrReplace_ne (l : List (K × CacheEntry V)) (k k0 : K)
    (e : CacheEntry V) (h : k0 ≠ k) :
    lookupEntry (insertOrReplace l k e) k0 = lookupEntry l k0 := by
  induction l with
  | nil => simp [insertOrReplace, lookupEntry, h]
  | cons p rest ih =>
    obtain ⟨k', e'⟩ := p
    simp only [insertOrReplace]
    by_cases hk : k = k'
    · subst hk
      simp [lookupEntry, h]
    · simp [lookupEntry, ih, hk]

theorem lookup_eq_none_of_not_mem (l : List (K × CacheEntry V)) (k : K)
    (h : k ∉ l.map Prod.fst) : lookupEntry l k = none := by
  induction l with
  | nil => rfl
  | cons p rest ih =>
    obtain ⟨k', e'⟩ := p
    simp only [List.map_cons, List.mem_cons] at h
    push_neg at h
    simp [lookupEntry, h.1, ih h.2]

/-- `set` on a full cache with distinct keys evicts the oldest (LRU)
binding before inserting the new key. -/
theorem set_evicts_lru (c : LRUCache K V) (now : ℚ) (k : K) (v : V)
    (t : Option ℚ) (k0 : K) (e0 : CacheEntry V)
    (hfull : c.cache.length = c.max_size)
    (hhead : c.cache.head? = some (k0, e0))
    (hne : k0 ≠ k)
    (hnd : (c.cache.map Prod.fst).Nodup) :
    lookupEntry (c.set now k v t).cache k0 = none := by
  obtain ⟨p, tail, hc⟩ : ∃ p tail, c.cache = p :: tail := by
    cases hcc : c.cache with
    | nil => rw [hcc] at hhead; simp at hhead
    | cons a b => exact ⟨a, b, rfl⟩
  have hp : p = (k0, e0) := by
    rw [hc] at hhead
    simpa using hhead
  subst hp
  rw [hc] at hfull hnd
  show lookupEntry (insertOrReplace
    (c.cache.drop (c.cache.length + 1 - c.max_size)) k
    ⟨v, now, t.getD c.default_ttl, 0⟩) k0 = none
  rw [hc]
  have hd : ((k0, e0) :: tail).length + 1 - c.max_size = 1 := by
    simp only [List.length_cons] at hfull ⊢
    omega
  rw [hd]
  simp only [List.drop_succ_cons, List.drop_zero]
  rw [lookup_insertOrReplace_ne _ _ _ _ hne]
  apply lookup_eq_none_of_not_mem
  simp only [List.map_cons, List.nodup_cons] at hnd
  exact hnd.1

/-- A `get` hit leaves the accessed key at the most-recently-used end. -/
theorem get_hit_moves_to_mru (c : LRUCache K V) (now : ℚ) (k : K)
    (hhit : ((c.get now k).1).isSome) :
    ((c.get now k).2.cache.getLast?.map Prod.fst) = some k := by
  simp only [LRUCache.get] at hhit ⊢
  cases hl : lookupEntry c.cache k with
  | none => rw [hl] at hhit; simp at hhit
  | some entry =>
    rw [hl] at hhit
    dsimp only at hhit ⊢
    split_ifs with hexp
    · simp [hexp] at hhit
    · have hlast : (eraseKey c.cache k ++
          [(k, { entry with hits := entry.hits + 1 })]).getLast? =
          some (k, { entry with hits := entry.hits + 1 }) := by
        rw [List.getLast?_concat]
      simp [hlast]

/-- C6: from a fresh `LRUCache` with `max_size ≥ 1`, no sequence of
`get`/`set`/`invalidate`/`clear`/`cleanup_expired` operations ever leaves
more than `max_size` stored entries; on a full cache, `set` evicts the
least-recently-used binding before inserting; and a `get` hit moves the
accessed key to the most-recently-used position. -/
theorem lru_cache_bounded :
    (∀ (K V : Type) [DecidableEq K] (m : ℕ) (ttl : ℚ)
        (ops : List (CacheOp K V)), 1 ≤ m →
        (ops.foldl applyCacheOp (LRUCache.init m ttl)).cache.length ≤ m)
    ∧ (∀ (K V : Type) [DecidableEq K] (c : LRUCache K V) (now : ℚ) (k : K)
        (v : V) (t : Option ℚ) (k0 : K) (e0 : CacheEntry V),
        c.cache.length = c.max_size → c.cache.head? = some (k0, e0) →
        k0 ≠ k → (c.cache.map Prod.fst).Nodup →
        lookupEntry (c.set now k v t).cache k0 = none)
    ∧ (∀ (K V : Type) [DecidableEq K] (c : LRUCache K V) (now : ℚ) (k : K),
        ((c.get now k).1).isSome →
        ((c.get now k).2.cache.getLast?.map Prod.fst) = some k) :=
  ⟨fun _ _ _ m ttl ops hm => cache_ops_bound m ttl ops hm,
   fun _ _ _ c now k v t k0 e0 h1 h2 h3 h4 =>
     set_evicts_lru c now k v t k0 e0 h1 h2 h3 h4,
   fun _ _ _ c now k hhit => get_hit_moves_to_mru c now k hhit⟩

/-- A full two-entry cache over natural-number keys and values. -/
def cacheW : LRUCache ℕ ℕ :=
  { cache := [(1, ⟨10, 0, 0, 0⟩), (2, ⟨20, 0, 0, 0⟩)],
    max_size := 2, default_ttl := 100, hits := 0, misses := 0 }

/-- C6 witness: the three parts of `lru_cache_bounded` applied at
concrete caches and operation sequences. -/
theorem lru_cache_bounded_app :
    (([CacheOp.set 0 1 10 none, CacheOp.set 0 2 20 none,
       CacheOp.set (V := ℕ) 0 3 30 none].foldl applyCacheOp
        (LRUCache.init 2 100)).cache.length ≤ 2)
    ∧ lookupEntry (cacheW.set 1 3 30 none).cache 1 = none
    ∧ ((cacheW.get 1 2).2.cache.getLast?.map Prod.fst) = some 2 :=
  ⟨lru_cache_bounded.1 ℕ ℕ 2 100 _ (by norm_num),
   lru_cache_bounded.2.1 ℕ ℕ cacheW 1 3 30 none 1 ⟨10, 0, 0, 0⟩
     (by decide) rfl (by decide) (by decide),
   lru_cache_bounded.2.2 ℕ ℕ cacheW 1 2 (by decide)⟩

/-! ## Rate limiting (src/core/rate_limiter.py)

`time.monotonic` never runs backwards, so elapsed times between refills
are non-negative; each operation carries its elapsed time explicitly and
`last_update` drops out of the state. `TokenBucket.acquire`'s blocking
loop refills once per iteration and sleeps between iterations; the
schedule argument lists the elapsed time observed at each iteration, and
its exhaustion models the timeout expiring (a non-blocking call is a
one-element schedule). -/

structure RateLimitConfig where
  requests_per_minute : ℚ := 60
  requests_per_hour : ℚ := 1000
  tokens_per_minute : ℚ := 90000
  burst_multiplier : ℚ := 3/2
deriving DecidableEq, Repr

structure TokenBucket where
  rate : ℚ
  capacity : ℚ
  tokens : ℚ
deriving DecidableEq, Repr

/-- `TokenBucket.__init__`: `capacity or rate * 1.5` treats both `None`
and `0.0` as absent (Python truthiness); `initial_tokens` is checked with
`is not None`, so `Option.getD` is exact. -/
def TokenBucket.init (rate : ℚ) (capacity : Option ℚ)
    (initial_tokens : Option ℚ) : TokenBucket :=
  let cap :=
    match capacity with
    | none => rate * (3/2)
    | some c => if c = 0 then rate * (3/2) else c
  { rate := rate, capacity := cap, tokens := initial_tokens.getD cap }

/-- `TokenBucket._refill`:
`tokens = min(capacity, tokens + elapsed * rate)`. -/
def TokenBucket._refill (b : TokenBucket) (elapsed : ℚ) : TokenBucket :=
  { b with tokens := pyMin b.capacity (b.tokens + elapsed * b.rate) }

/-- One iteration of `TokenBucket.acquire`'s loop body under the lock:
refill, then take the tokens when enough are available. -/
def TokenBucket.tryAcquire (b : TokenBucket) (elapsed n : ℚ) :
    Bool × TokenBucket :=
  let b' := b._refill elapsed
  if b'.tokens ≥ n then (true, { b' with tokens := b'.tokens - n })
  else (false, b')

/-- `TokenBucket.acquire(n, ...)` as the iterated loop; `false` when the
schedule (the time budget) runs out. -/
def TokenBucket.acquire (b : TokenBucket) (n : ℚ) :
    List ℚ → Bool × TokenBucket
  | [] => (false, b)
  | e :: rest =>
    let step := b.tryAcquire e n
    if step.1 then step else step.2.acquire n rest

/-- The `available_tokens` property: refill, then read. -/
def TokenBucket.available_tokens (b : TokenBucket) (elapsed : ℚ) :
    ℚ × TokenBucket :=
  let b' := b._refill elapsed
  (b'.tokens, b')

/-- The bucket's operations, each carrying its elapsed-time input(s). -/
inductive BucketOp where
  | refill (elapsed : ℚ)
  | acquire (n : ℚ) (schedule : List ℚ)
  | available (elapsed : ℚ)

def applyBucketOp (b : TokenBucket) : BucketOp → TokenBucket
  | .refill e => b._refill e
  | .acquire n sched => (b.acquire n sched).2
  | .available e => (b.available_tokens e).2

/-- Physical validity of an operation: elapsed times are non-negative
(monotonic clock) and an acquisition requests a non-negative amount, as
at every call site in the repository (`1.0` and `float(estimated)`). -/
def BucketOp.valid : BucketOp → Prop
  | .refill e => 0 ≤ e
  | .acquire n sched => 0 ≤ n ∧ ∀ e ∈ sched, 0 ≤ e
  | .available e => 0 ≤ e

/-! ### Token bucket lemmas (C7) -/

theorem pyMin_le_left (a b : ℚ) : pyMin a b ≤ a := by
  unfold pyMin
  split_ifs with h
  · exact le_rfl
  · linarith [lt_of_not_le h]

theorem refill_inv (b : TokenBucket) (e : ℚ) (hr : 0 ≤ b.rate)
    (h0 : 0 ≤ b.tokens) (h1 : b.tokens ≤ b.capacity) (he : 0 ≤ e) :
    0 ≤ (b._refill e).tokens ∧ (b._refill e).tokens ≤ b.capacity
    ∧ (b._refill e).rate = b.rate
    ∧ (b._refill e).capacity = b.capacity := by
  refine ⟨?_, pyMin_le_left _ _, rfl, rfl⟩
  show 0 ≤ pyMin b.capacity (b.tokens + e * b.rate)
  unfold pyMin
  have hx : 0 ≤ b.tokens + e * b.rate := by positivity
  split_ifs with h
  · linarith
  · exact hx

theorem tryAcquire_inv (b : TokenBucket) (e n : ℚ) (hr : 0 ≤ b.rate)
    (h0 : 0 ≤ b.tokens) (h1 : b.tokens ≤ b.capacity) (he : 0 ≤ e)
    (hn : 0 ≤ n) :
    0 ≤ (b.tryAcquire e n).2.tokens
    ∧ (b.tryAcquire e n).2.tokens ≤ b.capacity
    ∧ (b.tryAcquire e n).2.rate = b.rate
    ∧ (b.tryAcquire e n).2.capacity = b.capacity := by
  have hre := refill_inv b e hr h0 h1 he
  unfold TokenBucket.tryAcquire
  dsimp only
  split_ifs with h
  · exact ⟨by dsimp only; linarith, by dsimp only; linarith [hre.2.1],
      rfl, rfl⟩
  · exact hre

theorem acquireLoop_inv (sched : List ℚ) (b : TokenBucket) (n : ℚ)
    (hr : 0 ≤ b.rate) (h0 : 0 ≤ b.tokens) (h1 : b.tokens ≤ b.capacity)
    (hn : 0 ≤ n) (hs : ∀ e ∈ sched, 0 ≤ e) :
    0 ≤ (b.acquire n sched).2.tokens
    ∧ (b.acquire n sched).2.tokens ≤ b.capacity
    ∧ (b.acquire n sched).2.rate = b.rate
    ∧ (b.acquire n sched).2.capacity = b.capacity := by
  induction sched generalizing b with
  | nil => exact ⟨h0, h1, rfl, rfl⟩
  | cons e rest ih =>
    have hstep := tryAcquire_inv b e n hr h0 h1 (hs e (by simp)) hn
    simp only [TokenBucket.acquire]
    split_ifs with hok
    · exact hstep
    · have := ih (b.tryAcquire e n).2 (hstep.2.2.1 ▸ hr) hstep.1
        (hstep.2.2.2 ▸ hstep.2.1) (fun x hx => hs x (by simp [hx]))
      rw [hstep.2.2.1, hstep.2.2.2] at this
      exact this

/-- Any valid operation sequence keeps the invariant, the rate and the
capacity. -/
theorem bucket_ops_inv (rate cap tok : ℚ) (ops : List BucketOp)
    (hr : 0 ≤ rate) (h0 : 0 ≤ tok) (h1 : tok ≤ cap)
    (hv : ∀ op ∈ ops, op.valid) :
    0 ≤ (ops.foldl applyBucketOp ⟨rate, cap, tok⟩).tokens
    ∧ (ops.foldl applyBucketOp ⟨rate, cap, tok⟩).tokens ≤ cap
    ∧ (ops.foldl applyBucketOp ⟨rate, cap, tok⟩).rate = rate
    ∧ (ops.foldl applyBucketOp ⟨rate, cap, tok⟩).capacity = cap := by
  induction ops generalizing tok with
  | nil => exact ⟨h0, h1, rfl, rfl⟩
  | cons op rest ih =>
    have hop := hv op (by simp)
    have hstep :
        0 ≤ (applyBucketOp ⟨rate, cap, tok⟩ op).tokens
        ∧ (applyBucketOp ⟨rate, cap, tok⟩ op).tokens ≤ cap
        ∧ (applyBucketOp ⟨rate, cap, tok⟩ op).rate = rate
        ∧ (applyBucketOp ⟨rate, cap, tok⟩ op).capacity = cap := by
      cases op with
      | refill e => exact refill_inv ⟨rate, cap, tok⟩ e hr h0 h1 hop
      | acquire n sched =>
        exact acquireLoop_inv sched ⟨rate, cap, tok⟩ n hr h0 h1 hop.1 hop.2
      | available e => exact refill_inv ⟨rate, cap, tok⟩ e hr h0 h1 hop
    obtain ⟨s0, s1, s2, s3⟩ := hstep
    have hb : applyBucketOp ⟨rate, cap, tok⟩ op =
        (⟨rate, cap, (applyBucketOp ⟨rate, cap, tok⟩ op).tokens⟩ :
          TokenBucket) := by
      cases hbb : applyBucketOp ⟨rate, cap, tok⟩ op
      simp_all
    simp only [List.foldl_cons]
    rw [hb]
    exact ih _ s0 s1 (fun x hx => hv x (by simp [hx]))

/-- C7: each `_refill` recomputes the level as
`min(capacity, tokens + elapsed · rate)`, and for a bucket whose initial
tokens lie in `[0, capacity]` (with non-negative rate, as every
constructed bucket has), any sequence of refill / acquire /
available-tokens operations with non-negative elapsed times and request
sizes keeps the token level within `[0, capacity]`. -/
theorem token_bucket_invariant :
    (∀ (b : TokenBucket) (e : ℚ),
        (b._refill e).tokens = pyMin b.capacity (b.tokens + e * b.rate))
    ∧ (∀ (rate cap tok : ℚ) (ops : List BucketOp),
        0 ≤ rate → 0 ≤ tok → tok ≤ cap →
        (∀ op ∈ ops, op.valid) →
        0 ≤ (ops.foldl applyBucketOp ⟨rate, cap, tok⟩).tokens
        ∧ (ops.foldl applyBucketOp ⟨rate, cap, tok⟩).tokens ≤ cap) :=
  ⟨fun _ _ => rfl,
   fun rate cap tok ops hr h0 h1 hv =>
     ⟨(bucket_ops_inv rate cap tok ops hr h0 h1 hv).1,
      (bucket_ops_inv rate cap tok ops hr h0 h1 hv).2.1⟩⟩

/-- C7 witness: a full bucket of capacity 2 run through a refill, a
blocking acquisition and an availability read. -/
theorem token_bucket_invariant_app :
    0 ≤ ([BucketOp.refill 1, BucketOp.acquire 1 [0, 1],
          BucketOp.available 5].foldl applyBucketOp
            ⟨1, 2, 2⟩).tokens
    ∧ ([BucketOp.refill 1, BucketOp.acquire 1 [0, 1],
          BucketOp.available 5].foldl applyBucketOp
            ⟨1, 2, 2⟩).tokens ≤ 2 :=
  token_bucket_invariant.2 1 2 2 _ (by norm_num) (by norm_num) (by norm_num)
    (by
      intro op hop
      simp only [List.mem_cons, List.not_mem_nil, or_false] at hop
      rcases hop with rfl | rfl | rfl <;>
        simp [BucketOp.valid] <;> norm_num)

/-! ## RateLimiter (src/core/rate_limiter.py)

`total_tokens` is a Python `int` (`ℤ`): `report_actual_tokens` can drive
it negative. Each of the three bucket acquisitions receives its own
schedule of elapsed times (`s1`, `s2`, `s3`). -/

structure RateLimiter where
  rpm_bucket : TokenBucket
  rph_bucket : TokenBucket
  tpm_bucket : TokenBucket
  total_requests : ℕ
  total_tokens : ℤ
  blocked_requests : ℕ
deriving DecidableEq, Repr

/-- `RateLimiter.__init__`: note that every capacity is divided by the
same period as the rate, so the requests-per-hour bucket's capacity is
`requests_per_hour * burst / 3600`. -/
def RateLimiter.init (cfg : RateLimitConfig) : RateLimiter :=
  { rpm_bucket := TokenBucket.init (cfg.requests_per_minute / 60)
      (some (cfg.requests_per_minute * cfg.burst_multiplier / 60)) none
    rph_bucket := TokenBucket.init (cfg.requests_per_hour / 3600)
      (some (cfg.requests_per_hour * cfg.burst_multiplier / 3600)) none
    tpm_bucket := TokenBucket.init (cfg.tokens_per_minute / 60)
      (some (cfg.tokens_per_minute * cfg.burst_multiplier / 60)) none
    total_requests := 0
    total_tokens := 0
    blocked_requests := 0 }

/-- `RateLimiter.acquire(estimated_tokens, timeout)`: requests/minute,
then requests/hour, then tokens/minute; the first refusal increments
`blocked_requests` and returns `False` at once, keeping whatever earlier
buckets consumed; on full success `total_requests` and `total_tokens`
are updated. -/
def RateLimiter.acquire (l : RateLimiter) (estimated_tokens : ℤ)
    (s1 s2 s3 : List ℚ) : Bool × RateLimiter :=
  let r1 := l.rpm_bucket.acquire 1 s1
  if ¬ r1.1 then
    (false,
      { l with
          rpm_bucket := r1.2
          blocked_requests := l.blocked_requests + 1 })
  else
    let r2 := l.rph_bucket.acquire 1 s2
    if ¬ r2.1 then
      (false,
        { l with
            rpm_bucket := r1.2
            rph_bucket := r2.2
            blocked_requests := l.blocked_requests + 1 })
    else
      let r3 := l.tpm_bucket.acquire (estimated_tokens : ℚ) s3
      if ¬ r3.1 then
        (false,
          { l with
              rpm_bucket := r1.2
              rph_bucket := r2.2
              tpm_bucket := r3.2
              blocked_requests := l.blocked_requests + 1 })
      else
        (true,
          { l with
              rpm_bucket := r1.2
              rph_bucket := r2.2
              tpm_bucket := r3.2
              total_requests := l.total_requests + 1
              total_tokens := l.total_tokens + estimated_tokens })

/-- `RateLimiter.report_actual_tokens`: subtracts the constant 1000 and
adds the actual count, whatever estimate the matching `acquire` used. -/
def RateLimiter.report_actual_tokens (l : RateLimiter)
    (actual_tokens : ℤ) : RateLimiter :=
  { l with total_tokens := l.total_tokens - 1000 + actual_tokens }

/-! ### RateLimiter theorems (C8, C10) -/

/-- C8: `acquire` succeeds iff all three buckets grant in the order
requests/minute, requests/hour, tokens/minute; any refusal increments
`blocked_requests` and leaves `total_requests`/`total_tokens` untouched;
only full success updates them; buckets after the first refusal are
never touched, while earlier buckets keep their consumed state (no
refund). -/
theorem rate_limiter_acquire_order (l : RateLimiter) (est : ℤ)
    (s1 s2 s3 : List ℚ) :
    ((l.acquire est s1 s2 s3).1 = true ↔
      (l.rpm_bucket.acquire 1 s1).1 = true
      ∧ (l.rph_bucket.acquire 1 s2).1 = true
      ∧ (l.tpm_bucket.acquire (est : ℚ) s3).1 = true)
    ∧ ((l.acquire est s1 s2 s3).1 = false →
        (l.acquire est s1 s2 s3).2.blocked_requests =
          l.blocked_requests + 1
        ∧ (l.acquire est s1 s2 s3).2.total_requests = l.total_requests
        ∧ (l.acquire est s1 s2 s3).2.total_tokens = l.total_tokens)
    ∧ ((l.acquire est s1 s2 s3).1 = true →
        (l.acquire est s1 s2 s3).2.total_requests = l.total_requests + 1
        ∧ (l.acquire est s1 s2 s3).2.total_tokens = l.total_tokens + est
        ∧ (l.acquire est s1 s2 s3).2.blocked_requests = l.blocked_requests)
    ∧ ((l.rpm_bucket.acquire 1 s1).1 = false →
        (l.acquire est s1 s2 s3).2.rpm_bucket =
          (l.rpm_bucket.acquire 1 s1).2
        ∧ (l.acquire est s1 s2 s3).2.rph_bucket = l.rph_bucket
        ∧ (l.acquire est s1 s2 s3).2.tpm_bucket = l.tpm_bucket)
    ∧ ((l.rpm_bucket.acquire 1 s1).1 = true →
        (l.acquire est s1 s2 s3).2.rpm_bucket =
          (l.rpm_bucket.acquire 1 s1).2)
    ∧ ((l.rpm_bucket.acquire 1 s1).1 = true →
        (l.rph_bucket.acquire 1 s2).1 = false →
        (l.acquire est s1 s2 s3).2.rph_bucket =
          (l.rph_bucket.acquire 1 s2).2
        ∧ (l.acquire est s1 s2 s3).2.tpm_bucket = l.tpm_bucket)
    ∧ ((l.rpm_bucket.acquire 1 s1).1 = true →
        (l.rph_bucket.acquire 1 s2).1 = true →
        (l.acquire est s1 s2 s3).2.rph_bucket =
          (l.rph_bucket.acquire 1 s2).2
        ∧ (l.acquire est s1 s2 s3).2.tpm_bucket =
          (l.tpm_bucket.acquire (est : ℚ) s3).2) := by
  cases h1 : (l.rpm_bucket.acquire 1 s1).1 <;>
    cases h2 : (l.rph_bucket.acquire 1 s2).1 <;>
      cases h3 : (l.tpm_bucket.acquire (est : ℚ) s3).1 <;>
        simp [RateLimiter.acquire, h1, h2, h3]

/-- A limiter whose three buckets can grant a 1000-token request. -/
def rlW : RateLimiter :=
  { rpm_bucket := ⟨1, 2, 2⟩
    rph_bucket := ⟨1, 2, 2⟩
    tpm_bucket := ⟨1500, 2250, 2250⟩
    total_requests := 0
    total_tokens := 0
    blocked_requests := 0 }

/-- C8 witness: a fully granted acquisition, with its statistics and the
consumed requests/minute bucket. -/
theorem rate_limiter_acquire_order_app :
    (rlW.acquire 1000 [0] [0] [0]).1 = true
    ∧ (rlW.acquire 1000 [0] [0] [0]).2.total_requests = 1
    ∧ (rlW.acquire 1000 [0] [0] [0]).2.total_tokens = 1000
    ∧ (rlW.acquire 1000 [0] [0] [0]).2.rpm_bucket =
        (rlW.rpm_bucket.acquire 1 [0]).2 := by
  have h := rate_limiter_acquire_order rlW 1000 [0] [0] [0]
  refine ⟨?_, ?_, ?_, ?_⟩
  · exact h.1.mpr ⟨by decide, by decide, by decide⟩
  · exact ((h.2.2.1 (h.1.mpr ⟨by decide, by decide, by decide⟩)).1).trans rfl
  · exact ((h.2.2.1 (h.1.mpr ⟨by decide, by decide, by decide⟩)).2.1).trans rfl
  · exact h.2.2.2.2.1 (by decide)

/-- A configuration under which `acquire` can succeed (the default
requests-per-hour capacity of 1000·1.5/3600 < 1 token can never grant a
whole request, so the hourly limit is raised). -/
def c10cfg : RateLimitConfig := { requests_per_hour := 7200 }

/-- C10: `report_actual_tokens` unconditionally subtracts the constant
1000 (first conjunct), so after one granted `acquire` with
`estimated_tokens = 1` followed by `report_actual_tokens(0)` the
`total_tokens` statistic is −999 < 0. -/
theorem report_actual_tokens_drift :
    (∀ (l : RateLimiter) (actual : ℤ),
        (l.report_actual_tokens actual).total_tokens =
          l.total_tokens - 1000 + actual)
    ∧ ((RateLimiter.init c10cfg).acquire 1 [0] [0] [0]).1 = true
    ∧ (((RateLimiter.init c10cfg).acquire 1 [0] [0] [0]).2.report_actual_tokens
        0).total_tokens = -999
    ∧ (((RateLimiter.init c10cfg).acquire 1 [0] [0] [0]).2.report_actual_tokens
        0).total_tokens < 0 :=
  ⟨fun _ _ => rfl, by decide, by decide, by decide⟩

/-! ## Request handler (src/services/bot.py)

`NutritionBot.handle_customer_query` validates, rate-limits, then checks
the response cache. Three defects pin this path in the source:
`from core.cache import get_response_cache` names a function `core.cache`
does not define; the rate-limit check passes the *string*
`f"user:{user_id}"` as `acquire`'s `estimated_tokens: int` parameter; and
the default requests-per-hour bucket's capacity is
`1000 * 1.5 / 3600 < 1`, so its blocking acquisition of `1.0` token can
only time out. `acquire_str` reproduces the dynamic behaviour of
`RateLimiter.acquire` when called with that string: the first two buckets
never touch `estimated_tokens`; stage three would raise `ValueError` in
`float(...)`; full success would raise `TypeError` at
`self._total_tokens += estimated_tokens`. The SHA-256 hex digest, the
input validator and the agent executor (controller plus memory
collaborators) are opaque parameters; `controller_invoked` records
whether the miss path ran. -/

def default_rate_limit_config : RateLimitConfig := {}

/-- A bucket whose capacity is below the requested amount never grants,
whatever the schedule: each refill caps the level at `capacity < n`. -/
theorem acquire_never_grants (n : ℚ) (sched : List ℚ) (b : TokenBucket)
    (h : b.capacity < n) :
    (b.acquire n sched).1 = false := by
  induction sched generalizing b with
  | nil => rfl
  | cons e rest ih =>
    have hfail : (b.tryAcquire e n).1 = false := by
      unfold TokenBucket.tryAcquire TokenBucket._refill
      dsimp only
      have := pyMin_le_left b.capacity (b.tokens + e * b.rate)
      rw [if_neg]
      intro hge
      exact absurd (le_trans hge this) (not_le.mpr h)
    have hcap : (b.tryAcquire e n).2.capacity = b.capacity := by
      unfold TokenBucket.tryAcquire
      dsimp only
      split_ifs <;> rfl
    simp only [TokenBucket.acquire, hfail, Bool.false_eq_true, if_false]
    exact ih _ (hcap ▸ h)

/-- The "slow down" message returned on a rate-limit refusal. -/
def rate_limit_message : String :=
  "You" ++ String.singleton (Char.ofNat 39) ++
  "re sending messages too quickly. Please wait a moment and try again."

/-- `NutritionBot._generate_cache_key`: the first 32 hex characters of
`sha256(f"{user_id}:{query}")`, with the digest function abstract. -/
def _generate_cache_key (sha256hex : String → String)
    (user_id query : String) : String :=
  (sha256hex (user_id ++ ":" ++ query)).take 32

/-- `RateLimiter.acquire` as executed when the caller passes a string for
`estimated_tokens` (bot.py does: `acquire(f"user:{user_id}")`). -/
def RateLimiter.acquire_str (l : RateLimiter) (arg : String)
    (s1 s2 s3 : List ℚ) : Except String Bool × RateLimiter :=
  let r1 := l.rpm_bucket.acquire 1 s1
  if ¬ r1.1 then
    (.ok false,
      { l with
          rpm_bucket := r1.2
          blocked_requests := l.blocked_requests + 1 })
  else
    let r2 := l.rph_bucket.acquire 1 s2
    if ¬ r2.1 then
      (.ok false,
        { l with
            rpm_bucket := r1.2
            rph_bucket := r2.2
            blocked_requests := l.blocked_requests + 1 })
    else
      match pyFloat arg.data with
      | none =>
        (.error "ValueError: could not convert string to float",
          { l with
              rpm_bucket := r1.2
              rph_bucket := r2.2 })
      | some n =>
        let r3 := l.tpm_bucket.acquire n s3
        if ¬ r3.1 then
          (.ok false,
            { l with
                rpm_bucket := r1.2
                rph_bucket := r2.2
                tpm_bucket := r3.2
                blocked_requests := l.blocked_requests + 1 })
        else
          (.error "TypeError: unsupported operand types for int and str",
            { l with
                rpm_bucket := r1.2
                rph_bucket := r2.2
                tpm_bucket := r3.2
                total_requests := l.total_requests + 1 })

structure HandleResult where
  result : Except String String
  cache : LRUCache String String
  limiter : RateLimiter
  controller_invoked : Bool

/-- `NutritionBot.handle_customer_query`: validate (outcome abstracted to
a boolean and the validator's message), rate-limit with the string
argument, then consult the cache; Python's `if cached_response:` is a
truthiness test, so an empty cached string falls through to the miss
path, which runs the controller and caches its output under the default
TTL. -/
def handle_customer_query (sha256hex : String → String)
    (controller : String → String) (validator_ok : Bool)
    (validator_msg : String) (cache : LRUCache String String)
    (limiter : RateLimiter) (now : ℚ) (user_id query : String)
    (s1 s2 s3 : List ℚ) : HandleResult :=
  if ¬ validator_ok then
    ⟨.ok validator_msg, cache, limiter, false⟩
  else
    let acq := limiter.acquire_str ("user:" ++ user_id) s1 s2 s3
    match acq.1 with
    | .error e => ⟨.error e, cache, acq.2, false⟩
    | .ok false => ⟨.ok rate_limit_message, cache, acq.2, false⟩
    | .ok true =>
      let key := _generate_cache_key sha256hex user_id query
      let got := cache.get now key
      match got.1 with
      | some v =>
        if v ≠ "" then ⟨.ok v, got.2, acq.2, false⟩
        else
          let output := controller query
          ⟨.ok output, got.2.set now key output none, acq.2, true⟩
      | none =>
        let output := controller query
        ⟨.ok output, got.2.set now key output none, acq.2, true⟩

/-- C9: the cache key is a deterministic function of
`(user_id, query)` (first conjunct), but the cached-value fast path is
unreachable: the default requests-per-hour bucket holds under 1 token of
capacity (second conjunct), so for any limiter with that defect — the
one every `NutritionBot` builds — `handle_customer_query` returns the
rate-limit message and never the value cached under the key, and the
controller is never invoked (third conjunct). -/
theorem handle_query_cache_unreachable :
    (∀ (h : String → String) (u1 q1 u2 q2 : String), u1 = u2 → q1 = q2 →
        _generate_cache_key h u1 q1 = _generate_cache_key h u2 q2)
    ∧ (RateLimiter.init default_rate_limit_config).rph_bucket.capacity < 1
    ∧ (∀ (sha256hex controller : String → String) (vmsg : String)
        (cache : LRUCache String String) (l : RateLimiter) (now : ℚ)
        (user_id query : String) (s1 s2 s3 : List ℚ) (v : String),
        l.rph_bucket.capacity < 1 →
        (cache.get now (_generate_cache_key sha256hex user_id query)).1 =
          some v →
        (handle_customer_query sha256hex controller true vmsg cache l now
            user_id query s1 s2 s3).result = .ok rate_limit_message
        ∧ (handle_customer_query sha256hex controller true vmsg cache l now
            user_id query s1 s2 s3).controller_invoked = false
        ∧ (handle_customer_query sha256hex controller true vmsg cache l now
            user_id query s1 s2 s3).cache = cache
        ∧ (v ≠ rate_limit_message →
            (handle_customer_query sha256hex controller true vmsg cache l now
              user_id query s1 s2 s3).result ≠ .ok v)) := by
  refine ⟨fun h u1 q1 u2 q2 hu hq => by rw [hu, hq], by decide, ?_⟩
  intro sha256hex controller vmsg cache l now user_id query s1 s2 s3 v
    hcap hcached
  have hrph : (l.rph_bucket.acquire 1 s2).1 = false :=
    acquire_never_grants 1 s2 l.rph_bucket hcap
  have hres : (l.acquire_str ("user:" ++ user_id) s1 s2 s3).1 =
      .ok false := by
    unfold RateLimiter.acquire_str
    cases h1 : (l.rpm_bucket.acquire 1 s1).1 <;> simp [h1, hrph]
  have hmain :
      handle_customer_query sha256hex controller true vmsg cache l now
        user_id query s1 s2 s3 =
      ⟨.ok rate_limit_message, cache,
        (l.acquire_str ("user:" ++ user_id) s1 s2 s3).2, false⟩ := by
    simp [handle_customer_query, hres]
  refine ⟨by rw [hmain], by rw [hmain], by rw [hmain], fun hv hcontra => ?_⟩
  rw [hmain] at hcontra
  have hvm : rate_limit_message = v := by simpa using hcontra
  exact hv hvm.symm

/-- A cache holding a live value for user `u1` and query `hi` under the
identity digest. -/
def cacheS : LRUCache String String :=
  { cache := [("u1:hi", ⟨"cached answer", 0, 0, 0⟩)],
    max_size := 500, default_ttl := 3600, hits := 0, misses := 0 }

set_option maxRecDepth 4000 in
/-- C9 witness: a fresh default-config bot with a cached value still
answers with the rate-limit message and never runs the controller. -/
theorem handle_query_cache_unreachable_app :
    (handle_customer_query id id true "invalid" cacheS
        (RateLimiter.init default_rate_limit_config) 5 "u1" "hi"
        [0] [0] [0]).result = .ok rate_limit_message
    ∧ (handle_customer_query id id true "invalid" cacheS
        (RateLimiter.init default_rate_limit_config) 5 "u1" "hi"
        [0] [0] [0]).controller_invoked = false :=
  have h := handle_query_cache_unreachable.2.2 id id "invalid" cacheS
    (RateLimiter.init default_rate_limit_config) 5 "u1" "hi" [0] [0] [0]
    "cached answer" (by decide) (by decide)
  ⟨h.1, h.2.1⟩
